import Mathlib

/-!
Verification of the modbus-fast Home Assistant integration.

The development shallowly embeds the polling hub of
`custom_components/modbus_fast/__init__.py`, the entity snapshot accessor of
`custom_components/modbus_fast/binary_sensor.py` and the diagnostic command
line tool `scripts/modbus_test.py`.  Transport I/O (the pymodbus client) is
modelled as an explicit per-cycle environment recording what the awaited
calls would have returned; everything on the repository side of that
boundary is translated directly from the Python source.
-/

namespace ModbusFast

/-- Register kinds accepted by the configuration schema (`register_type`,
one of holding / input / coil). -/
inductive RegisterType where
  | coil
  | input
  | holding
deriving DecidableEq

/-- A pymodbus read-response object `rr` as consumed by `_poll_once`: the
`isError()` flag and the `bits` / `registers` attributes, with the
`getattr(rr, ..., [])` defaults already folded in (a missing attribute is
the empty list). -/
structure ReadResult where
  isError : Bool
  bits : List Bool
  registers : List Nat
deriving DecidableEq

/-- Outcome of the awaited read call inside `_poll_once`'s `try` block:
either some exception (`err` — a device exception, a propagated `TypeError`
from `_read_call`, an `AttributeError`, ...) or a response object. -/
inductive ReadOutcome where
  | err
  | ok (rr : ReadResult)
deriving DecidableEq

/-- Transport-side environment of one `_poll_once` call: whether
`self._client` is not `None`, whether the client reports itself connected
once `_ensure_connected` has run (when this is `false` the reconnect inside
`_ensure_connected` failed or raised, which sets `self.connected = False`),
and the outcome of the read call itself. -/
structure CycleEnv where
  clientPresent : Bool
  ioConnected : Bool
  outcome : ReadOutcome
deriving DecidableEq

/-- Embedding of `ModbusFastHub._poll_once`.  Takes the hub's
`register_type` and `count`, the transport environment for this cycle and
the current `self.connected`, and returns the optional boolean batch
together with the new `self.connected`.  For coils the source computes
`list(rr.bits)[: self.count]` and then `[bool(b) for b in bits]`, which is
the identity on booleans; for registers it computes `[bool(v) for v in
rr.registers]`, i.e. nonzero tests. -/
def _poll_once (rt : RegisterType) (count : Nat) (env : CycleEnv) (conn : Bool) :
    Option (List Bool) × Bool :=
  if env.clientPresent = false then (none, conn)
  else if env.ioConnected = false then (none, false)
  else
    match env.outcome with
    | .err => (none, false)
    | .ok rr =>
      if rr.isError then (none, false)
      else
        match rt with
        | .coil => (some (rr.bits.take count), true)
        | .input => (some (rr.registers.map (fun v => decide (v ≠ 0))), true)
        | .holding => (some (rr.registers.map (fun v => decide (v ≠ 0))), true)

/-- The changed-index computation of `_poll_loop`:
`[i for i, (a, b) in enumerate(zip(self.values, new_vals)) if a != b]`,
where the stored entries are optional booleans and the fresh entries are
booleans (`None != True` and `None != False` in Python, matched here by
comparing against `some b`). -/
def changedIdx (old : List (Option Bool)) (nv : List Bool) : List Nat :=
  (((old.zip nv).enum).filter (fun p => p.2.1 != some p.2.2)).map Prod.fst

/-- One publish step of `_poll_loop` (the body guarded by
`if new_vals is not None`): given `only_on_change`, the stored
`self.values` (optional, mirroring the `self.values is None` guard) and the
fresh `new_vals`, returns the new `self.values` together with the
dispatched payload — `none` when nothing is dispatched, `some none` for the
full-refresh dispatch, `some (some idxs)` for a changed-index dispatch. -/
def pollStep (ooc : Bool) (values : Option (List (Option Bool)))
    (new_vals : Option (List Bool)) :
    Option (List (Option Bool)) × Option (Option (List Nat)) :=
  match new_vals with
  | none => (values, none)
  | some nv =>
    let vals1 :=
      match values with
      | none => List.replicate nv.length (none : Option Bool)
      | some vs =>
        if vs.length ≠ nv.length then List.replicate nv.length none else vs
    if ooc then
      let changed := changedIdx vals1 nv
      if changed = [] then (some vals1, none)
      else (some (nv.map some), some (some changed))
    else (some (nv.map some), some none)

/-- One iteration input of the poll loop: either a transport environment for
a normal cycle, or an unexpected internal error raised by the loop body
itself (outside `_poll_once`'s own exception handling). -/
inductive CycleInput where
  | io (env : CycleEnv)
  | crash
deriving DecidableEq

/-- The hub state touched by the poll loop: `self.values` and
`self.connected`. -/
structure LoopState where
  values : Option (List (Option Bool))
  connected : Bool
deriving DecidableEq

/-- The `while not self._stop_evt.is_set()` loop of `_poll_loop`, run over a
finite trace of cycle inputs (an exhausted trace models the stop event
being set).  Returns the final state, the dispatched payloads in order, and
whether the loop was terminated by an unexpected internal error (the
`except Exception` arm, which logs and falls through to `finally`). -/
def pollLoopAux (rt : RegisterType) (ooc : Bool) (count : Nat) :
    LoopState → List CycleInput → LoopState × List (Option (List Nat)) × Bool
  | s, [] => (s, [], false)
  | s, .crash :: _ => (s, [], true)
  | s, .io env :: rest =>
    let pr := _poll_once rt count env s.connected
    let st := pollStep ooc s.values pr.fst
    let r := pollLoopAux rt ooc count ⟨st.fst, pr.snd⟩ rest
    (r.fst, st.snd.toList ++ r.snd.fst, r.snd.snd)

/-- Embedding of `ModbusFastHub._poll_loop` including its `finally` clause,
which unconditionally sets `self.connected = False` on every exit path
(stop, cancellation and crash alike). -/
def _poll_loop (rt : RegisterType) (ooc : Bool) (count : Nat)
    (s : LoopState) (inputs : List CycleInput) :
    LoopState × List (Option (List Nat)) × Bool :=
  let r := pollLoopAux rt ooc count s inputs
  (⟨r.fst.values, false⟩, r.snd)

/-- Hub state right after the constructor:
`self.values = [None] * self.count`. -/
def initialValues (count : Nat) : Option (List (Option Bool)) :=
  some (List.replicate count none)

/-- Model of `ModbusFastBinarySensor.is_on`: returns `None` when the hub's
vector is `None` or the index is out of range, else the stored element. -/
def is_on (values : Option (List (Option Bool))) (index : Nat) : Option Bool :=
  match values with
  | none => none
  | some vals => if vals.length ≤ index then none else vals.getD index none

/-- Tests whether `needle` is a leading segment of `hay`. -/
def strStartsWith : List Char → List Char → Bool
  | [], _ => true
  | _ :: _, [] => false
  | a :: as, b :: bs => a == b && strStartsWith as bs

/-- Tests whether `needle` occurs contiguously inside `hay`. -/
def hasSub (needle : List Char) : List Char → Bool
  | [] => strStartsWith needle []
  | c :: t => strStartsWith needle (c :: t) || hasSub needle t

/-- Python's substring test `sub in msg`. -/
def strContains (msg sub : String) : Bool := hasSub sub.toList msg.toList

/-- The keyword string `"unit"`. -/
def kwUnit : String := "unit"

/-- The keyword string `"slave"`. -/
def kwSlave : String := "slave"

/-- The word `"unexpected"` matched by `_read_call`. -/
def msgUnexpected : String := "unexpected"

/-- The phrase `"got an unexpected keyword"` matched by `_read_call`. -/
def msgGotUnexpected : String := "got an unexpected keyword"

/-- An ASCII single-quote character, written by code point to keep the
source free of quote literals. -/
def squote : String := String.singleton (Char.ofNat 39)

/-- The CPython `TypeError` message produced when a call supplies an
unknown keyword argument: `name() got an unexpected keyword argument
(quoted kw)`. -/
def tyErrMsg (name kw : String) : String :=
  name ++ "() got an unexpected keyword argument " ++ squote ++ kw ++ squote

/-- One pymodbus read method as seen by `_get_unit_kwargs` and
`_read_call`: its `__name__`, whether `inspect.signature` succeeds, which
parameter names the reported signature contains, which device-id keyword an
actual call accepts without raising `TypeError`, and the response a
keyword-accepted call produces. -/
structure ReadMethod where
  name : String
  sigKnown : Bool
  hasUnit : Bool
  hasSlave : Bool
  acceptsUnit : Bool
  acceptsSlave : Bool
  result : ReadResult
deriving DecidableEq

/-- Invoking the method with the given device-id keyword: success when the
keyword is accepted, else the standard unexpected-keyword `TypeError`. -/
def callWith (m : ReadMethod) (kw : String) : Except String ReadResult :=
  if (if kw = kwUnit then m.acceptsUnit
      else if kw = kwSlave then m.acceptsSlave else false)
  then .ok m.result
  else .error (tyErrMsg m.name kw)

/-- Embedding of `ModbusFastHub._get_unit_kwargs`: when the cache
`self._unit_kw_name` is unset, probe the signature (preferring `unit`, then
`slave`, defaulting to `unit` when neither appears or introspection
raises), cache the choice, and return it. -/
def _get_unit_kwargs (m : ReadMethod) (cache : Option String) :
    String × Option String :=
  match cache with
  | some kw => (kw, some kw)
  | none =>
    let kw :=
      if m.sigKnown = false then kwUnit
      else if m.hasUnit then kwUnit
      else if m.hasSlave then kwSlave
      else kwUnit
    (kw, some kw)

/-- Embedding of `ModbusFastHub._read_call` (the body after the client and
method lookups): call with the cached/probed keyword; on a `TypeError`
whose message string-matches the unexpected-keyword patterns, overwrite the
cache and retry exactly once (a failure of the retry propagates); on any
other `TypeError` re-raise.  Returns the call outcome and the cache left in
`self._unit_kw_name`. -/
def _read_call (m : ReadMethod) (cache : Option String) :
    Except String ReadResult × Option String :=
  let probe := _get_unit_kwargs m cache
  match callWith m probe.fst with
  | .ok rr => (.ok rr, probe.snd)
  | .error msg =>
    if (strContains msg kwUnit && strContains msg msgUnexpected)
        || strContains msg msgGotUnexpected then
      (callWith m kwSlave, some kwSlave)
    else if (strContains msg kwSlave && strContains msg msgUnexpected)
        || strContains msg msgGotUnexpected then
      (callWith m kwUnit, some kwUnit)
    else
      (.error msg, probe.snd)

/-- Connection mode of the diagnostic command line tool. -/
inductive CliMode where
  | tcp
  | rtu
deriving DecidableEq

/-- The `--type` choices of the diagnostic tool. -/
inductive CliReadType where
  | holding
  | input
  | coils
  | discrete
deriving DecidableEq

/-- The parsed arguments of `scripts/modbus_test.py` that its control flow
branches on: the mode, whether `--serial` was given a truthy value, and the
read type. -/
structure CliArgs where
  mode : CliMode
  serialGiven : Bool
  rtype : CliReadType
deriving DecidableEq

/-- Environment of one diagnostic run: whether `client.connect()` succeeds,
whether the response reports an error, and the `registers` / `bits`
attributes of the response (`getattr(rr, ..., None)` — `none` models a
missing attribute). -/
structure CliEnv where
  connectOk : Bool
  readIsError : Bool
  registers : Option (List Nat)
  bits : Option (List Bool)
deriving DecidableEq

/-- The `values` local of `main`: `registers` for holding/input reads,
`bits` for coils/discrete reads. -/
def cliValues (t : CliReadType) (env : CliEnv) : Option (List Nat) ⊕ Option (List Bool) :=
  match t with
  | .holding => .inl env.registers
  | .input => .inl env.registers
  | .coils => .inr env.bits
  | .discrete => .inr env.bits

/-- Whether the `values` local is `None`. -/
def cliNoData (t : CliReadType) (env : CliEnv) : Bool :=
  match cliValues t env with
  | .inl r => r.isNone
  | .inr b => b.isNone

/-- Embedding of `main` in `scripts/modbus_test.py`: the returned process
exit code as a function of arguments and environment. -/
def cliMain (a : CliArgs) (env : CliEnv) : Nat :=
  if a.mode = .rtu ∧ a.serialGiven = false then 2
  else if env.connectOk = false then 3
  else if env.readIsError then 4
  else if cliNoData a.rtype env then 5
  else 0

/-- Model of the constructor line `self.sample_ms = max(1, conf[CONF_SAMPLE_MS])`. -/
def sample_ms (conf : Int) : Int := max 1 conf

/-- Target period in seconds computed at the top of `_poll_loop`:
`period = self.sample_ms / 1000.0; period = max(0.001, period)`.  Exact
rational arithmetic stands in for the float arithmetic of the source; every
quantity involved is an exactly representable small decimal, and the
claims about this computation are order-theoretic. -/
def targetPeriod (conf : Int) : ℚ := max (1 / 1000) ((sample_ms conf : ℚ) / 1000)

/-- The per-cycle remainder sleep of `_poll_loop`:
`sleep_for = max(0.0, period - elapsed)`. -/
def sleep_for (period elapsed : ℚ) : ℚ := max 0 (period - elapsed)

theorem changedIdx_cons (a : Option Bool) (b : Bool) (old : List (Option Bool))
    (nv : List Bool) :
    changedIdx (a :: old) (b :: nv) =
      (if a = some b then [] else [0]) ++ (changedIdx old nv).map (· + 1) := by
  simp only [changedIdx, List.zip_cons_cons, List.enum_cons', List.filter_cons,
    List.filter_map, List.map_map]
  by_cases hab : a = some b
  · simp [hab, Function.comp_def]
  · simp [hab, Function.comp_def]

theorem mem_changedIdx {old : List (Option Bool)} {nv : List Bool} {i : Nat} :
    i ∈ changedIdx old nv ↔
      ∃ a b, old[i]? = some a ∧ nv[i]? = some b ∧ a ≠ some b := by
  simp only [changedIdx, List.mem_map, List.mem_filter,
    List.mem_enum_iff_getElem?, List.getElem?_zip_eq_some]
  constructor
  · rintro ⟨⟨j, a, b⟩, ⟨⟨ha, hb⟩, hq⟩, rfl⟩
    refine ⟨a, b, ha, hb, ?_⟩
    simpa using hq
  · rintro ⟨a, b, ha, hb, hne⟩
    exact ⟨(i, a, b), ⟨⟨ha, hb⟩, by simpa using hne⟩, rfl⟩

theorem changedIdx_eq_nil_iff {old : List (Option Bool)} {nv : List Bool}
    (h : old.length = nv.length) :
    changedIdx old nv = [] ↔ old = nv.map some := by
  rw [List.eq_nil_iff_forall_not_mem]
  constructor
  · intro hno
    refine List.ext_getElem? fun i => ?_
    rcases Nat.lt_or_ge i nv.length with hi | hi
    · have hio : i < old.length := by omega
      have ha : old[i]? = some old[i] := List.getElem?_eq_getElem hio
      have hb : nv[i]? = some nv[i] := List.getElem?_eq_getElem hi
      have : ¬ old[i] ≠ some nv[i] := by
        intro hne
        exact hno i (mem_changedIdx.mpr ⟨old[i], nv[i], ha, hb, hne⟩)
      rw [ha, List.getElem?_map, hb, Option.map_some', not_not.mp this]
    · rw [List.getElem?_eq_none (by omega), List.getElem?_map,
        List.getElem?_eq_none hi, Option.map_none']
  · rintro rfl i hi
    rcases mem_changedIdx.mp hi with ⟨a, b, ha, hb, hne⟩
    rw [List.getElem?_map, hb, Option.map_some'] at ha
    exact hne (Option.some.inj ha.symm)

theorem changedIdx_nil_right (old : List (Option Bool)) : changedIdx old [] = [] := by
  simp [changedIdx]

theorem changedIdx_replicate_none (nv : List Bool) :
    changedIdx (List.replicate nv.length none) nv = List.range nv.length := by
  induction nv with
  | nil => rfl
  | cons b t ih =>
    rw [List.length_cons, List.replicate_succ, changedIdx_cons, ih,
      List.range_succ_eq_map]
    simp [Nat.succ_eq_add_one]

theorem pollStep_some_length (ooc : Bool) (values : Option (List (Option Bool)))
    (nv : List Bool) :
    ∃ stored, (pollStep ooc values (some nv)).fst = some stored ∧
      stored.length = nv.length := by
  cases values with
  | none =>
    cases ooc with
    | false => exact ⟨nv.map some, rfl, by simp⟩
    | true =>
      by_cases hc : changedIdx (List.replicate nv.length none) nv = []
      · exact ⟨List.replicate nv.length none, by simp [pollStep, hc], by simp⟩
      · exact ⟨nv.map some, by simp [pollStep, hc], by simp⟩
  | some vs =>
    by_cases hl : vs.length ≠ nv.length
    · cases ooc with
      | false => exact ⟨nv.map some, by simp [pollStep, hl], by simp⟩
      | true =>
        by_cases hc : changedIdx (List.replicate nv.length none) nv = []
        · exact ⟨List.replicate nv.length none, by simp [pollStep, hl, hc], by simp⟩
        · exact ⟨nv.map some, by simp [pollStep, hl, hc], by simp⟩
    · cases ooc with
      | false => exact ⟨nv.map some, by simp [pollStep, hl], by simp⟩
      | true =>
        by_cases hc : changedIdx vs nv = []
        · exact ⟨vs, by simp [pollStep, hl, hc], by omega⟩
        · exact ⟨nv.map some, by simp [pollStep, hl, hc], by simp⟩

/-- C1 (amended): after a successful `_poll_once`, the vector stored by the
publish step has the length of the returned batch — for coil reads
`min count (number of returned bits)` (truncated to at most `count`, never
padded), for input/holding reads the number of returned registers.  It
equals `count` exactly when the device returns at least `count` bits
(coil) respectively exactly `count` registers. -/
theorem claim_C1 (rt : RegisterType) (count : Nat) (env : CycleEnv) (conn : Bool)
    (ooc : Bool) (values : Option (List (Option Bool))) (l : List Bool)
    (h : (_poll_once rt count env conn).fst = some l) :
    (∃ stored, (pollStep ooc values (some l)).fst = some stored ∧
        stored.length = l.length) ∧
    (∀ rr, env.outcome = .ok rr →
      (rt = .coil → l.length = min count rr.bits.length) ∧
      (rt ≠ .coil → l.length = rr.registers.length)) := by
  refine ⟨pollStep_some_length ooc values l, ?_⟩
  intro rr hrr
  cases hcp : env.clientPresent with
  | false => simp [_poll_once, hcp] at h
  | true =>
    cases hio : env.ioConnected with
    | false => simp [_poll_once, hcp, hio] at h
    | true =>
      cases hie : rr.isError with
      | true => simp [_poll_once, hcp, hio, hrr, hie] at h
      | false =>
        simp only [_poll_once, hcp, hio, hrr, hie, Bool.false_eq_true,
          if_false, Bool.true_eq_false] at h
        cases rt with
        | coil =>
          constructor
          · intro _
            injection h with h
            subst h
            simp
          · intro hne
            exact absurd rfl hne
        | input =>
          constructor
          · intro hrt
            exact absurd hrt (by decide)
          · intro _
            injection h with h
            subst h
            simp
        | holding =>
          constructor
          · intro hrt
            exact absurd hrt (by decide)
          · intro _
            injection h with h
            subst h
            simp

/-- C1 counterexample: with a coil configuration of `count = 4` and a
device returning only two bits, `_poll_once` succeeds with a two-element
batch, the stored vector afterwards has length 2, and 2 is not 4 — the
stored vector's length does not equal the configured count after this
successful poll. -/
theorem claim_C1_counterexample :
    (_poll_once .coil 4 ⟨true, true, .ok ⟨false, [true, false], []⟩⟩ false).fst
        = some [true, false] ∧
    (pollStep true (initialValues 4) (some [true, false])).fst
        = some [some true, some false] ∧
    ([some true, some false] : List (Option Bool)).length ≠ 4 := by
  refine ⟨rfl, ?_, by decide⟩
  decide

/-- C1 witness: the amended statement instantiated at a coil poll with
`count = 4` and a device answering four bits. -/
theorem claim_C1_witness :
    (∃ stored, (pollStep true (initialValues 4)
        (some [true, false, true, false])).fst = some stored ∧
        stored.length = ([true, false, true, false] : List Bool).length) ∧
    (∀ rr, (CycleEnv.mk true true
        (.ok ⟨false, [true, false, true, false], []⟩)).outcome = .ok rr →
      (RegisterType.coil = .coil →
        ([true, false, true, false] : List Bool).length = min 4 rr.bits.length) ∧
      (RegisterType.coil ≠ .coil →
        ([true, false, true, false] : List Bool).length = rr.registers.length)) :=
  claim_C1 .coil 4 ⟨true, true, .ok ⟨false, [true, false, true, false], []⟩⟩ false
    true (initialValues 4) [true, false, true, false] rfl

theorem pollStep_absent_base (vs : List (Option Bool)) (nv : List Bool)
    (h : vs.length ≠ nv.length ∨ vs = List.replicate nv.length none) :
    (pollStep false (some vs) (some nv)).snd = some none ∧
    (nv ≠ [] → (pollStep true (some vs) (some nv)).snd
        = some (some (List.range nv.length))) ∧
    (nv = [] → (pollStep true (some vs) (some nv)).snd = none) := by
  rcases h with h | rfl
  · refine ⟨by simp [pollStep, h], ?_, ?_⟩
    · intro hnv
      have hr : List.range nv.length ≠ [] := by
        simpa [List.range_eq_nil] using
          fun hz => hnv (List.eq_nil_of_length_eq_zero hz)
      simp [pollStep, h, changedIdx_replicate_none, hr]
    · intro hnv
      subst hnv
      simp [pollStep, h, changedIdx_nil_right]
  · refine ⟨by simp [pollStep], ?_, ?_⟩
    · intro hnv
      have hr : List.range nv.length ≠ [] := by
        simpa [List.range_eq_nil] using
          fun hz => hnv (List.eq_nil_of_length_eq_zero hz)
      simp [pollStep, changedIdx_replicate_none, hr]
    · intro hnv
      subst hnv
      simp [pollStep, changedIdx_nil_right]

/-- C2 (amended): when a read returns a vector whose length differs from
the stored vector, the stored vector is first reset to all-absent of the
new length; with change-only disabled the dispatched payload is the
full-refresh `None`, but with change-only enabled the dispatched payload is
the list of all indices of the new vector (every index differs from the
reset absent entries) — an index list rather than `None` — and when the new
vector is empty no event is dispatched at all. -/
theorem claim_C2 (vs : List (Option Bool)) (nv : List Bool)
    (h : vs.length ≠ nv.length) :
    (pollStep false (some vs) (some nv)).snd = some none ∧
    (nv ≠ [] → (pollStep true (some vs) (some nv)).snd
        = some (some (List.range nv.length))) ∧
    (nv = [] → (pollStep true (some vs) (some nv)).snd = none) :=
  pollStep_absent_base vs nv (Or.inl h)

/-- C2 counterexample: change-only mode, stored vector of length 4, read of
length 2 — the dispatched payload is the index list `[0, 1]`, not the
full-refresh `None`. -/
theorem claim_C2_counterexample :
    (pollStep true (some [some true, some false, some false, some true])
        (some [true, false])).snd = some (some [0, 1]) ∧
    (some (some [0, 1]) : Option (Option (List Nat))) ≠ some none := by
  refine ⟨?_, by decide⟩
  decide

/-- C2 witness: the amended statement instantiated at a length-4 stored
vector and a length-2 read. -/
theorem claim_C2_witness :
    (pollStep false (some [some true, some false, some false, some true])
        (some [true, false])).snd = some none ∧
    (([true, false] : List Bool) ≠ [] →
      (pollStep true (some [some true, some false, some false, some true])
        (some [true, false])).snd
          = some (some (List.range ([true, false] : List Bool).length))) ∧
    (([true, false] : List Bool) = [] →
      (pollStep true (some [some true, some false, some false, some true])
        (some [true, false])).snd = none) :=
  claim_C2 [some true, some false, some false, some true] [true, false] (by decide)

/-- C3 (amended): on the first successful poll after startup (stored vector
all-absent), change-only disabled dispatches the full-refresh `None`, while
change-only enabled dispatches the list of all indices of the new vector
(every entry was absent, so every index counts as changed) — and dispatches
nothing at all when the new vector is empty. -/
theorem claim_C3 (m : Nat) (nv : List Bool) :
    (pollStep false (some (List.replicate m none)) (some nv)).snd = some none ∧
    (nv ≠ [] → (pollStep true (some (List.replicate m none)) (some nv)).snd
        = some (some (List.range nv.length))) ∧
    (nv = [] →
      (pollStep true (some (List.replicate m none)) (some nv)).snd = none) := by
  by_cases hm : m = nv.length
  · exact pollStep_absent_base _ nv (Or.inr (by rw [hm]))
  · exact pollStep_absent_base _ nv (Or.inl (by simpa using hm))

/-- C3 counterexample: change-only mode, initial all-absent vector of
length 2, first successful read `[false, false]` — the dispatched payload
is the index list `[0, 1]`, not the full-refresh `None`. -/
theorem claim_C3_counterexample :
    (pollStep true (initialValues 2) (some [false, false])).snd
        = some (some [0, 1]) ∧
    (some (some [0, 1]) : Option (Option (List Nat))) ≠ some none := by
  refine ⟨?_, by decide⟩
  decide

/-- C3 witness: the amended statement instantiated at an all-absent vector
of length 2 and the read `[false, false]`. -/
theorem claim_C3_witness :
    (pollStep false (some (List.replicate 2 none)) (some [false, false])).snd
        = some none ∧
    (([false, false] : List Bool) ≠ [] →
      (pollStep true (some (List.replicate 2 none)) (some [false, false])).snd
        = some (some (List.range ([false, false] : List Bool).length))) ∧
    (([false, false] : List Bool) = [] →
      (pollStep true (some (List.replicate 2 none)) (some [false, false])).snd
        = none) :=
  claim_C3 2 [false, false]

/-- C4 (confirmed): with change-only mode enabled and a read of the same
length as the stored vector, an element-wise identical read (each stored
entry equals the corresponding fresh boolean) dispatches nothing and leaves
the stored vector unchanged; a read differing somewhere replaces the stored
vector by the new one and dispatches exactly the changed-index list, whose
members are precisely the indices where the stored entry differs from the
fresh value. -/
theorem claim_C4 (vs : List (Option Bool)) (nv : List Bool)
    (h : vs.length = nv.length) :
    (vs = nv.map some → pollStep true (some vs) (some nv) = (some vs, none)) ∧
    (vs ≠ nv.map some →
      pollStep true (some vs) (some nv)
          = (some (nv.map some), some (some (changedIdx vs nv))) ∧
      changedIdx vs nv ≠ [] ∧
      (∀ i : Nat, i ∈ changedIdx vs nv ↔
        ∃ a b, vs[i]? = some a ∧ nv[i]? = some b ∧ a ≠ some b)) := by
  constructor
  · intro heq
    have hc : changedIdx vs nv = [] := (changedIdx_eq_nil_iff h).mpr heq
    simp [pollStep, h, hc]
  · intro hne
    have hc : changedIdx vs nv ≠ [] :=
      fun hz => hne ((changedIdx_eq_nil_iff h).mp hz)
    exact ⟨by simp [pollStep, h, hc], hc, fun i => mem_changedIdx⟩

/-- C4 witness: the confirmed statement instantiated at the spec's own
scenario step (stored `[T,F,F,T]`, read `[T,T,F,T]`, changed index 1). -/
theorem claim_C4_witness :
    (([some true, some false, some false, some true] : List (Option Bool))
          = ([true, true, false, true] : List Bool).map some →
      pollStep true (some [some true, some false, some false, some true])
          (some [true, true, false, true])
        = (some [some true, some false, some false, some true], none)) ∧
    (([some true, some false, some false, some true] : List (Option Bool))
          ≠ ([true, true, false, true] : List Bool).map some →
      pollStep true (some [some true, some false, some false, some true])
          (some [true, true, false, true])
        = (some (([true, true, false, true] : List Bool).map some),
           some (some (changedIdx [some true, some false, some false, some true]
              [true, true, false, true]))) ∧
      changedIdx [some true, some false, some false, some true]
          [true, true, false, true] ≠ [] ∧
      (∀ i : Nat, i ∈ changedIdx [some true, some false, some false, some true]
            [true, true, false, true] ↔
        ∃ a b, ([some true, some false, some false, some true] :
            List (Option Bool))[i]? = some a ∧
          ([true, true, false, true] : List Bool)[i]? = some b ∧ a ≠ some b)) :=
  claim_C4 [some true, some false, some false, some true]
    [true, true, false, true] rfl

/-- C5 (confirmed): a cycle whose read comes back absent leaves the stored
vector untouched, dispatches nothing for that cycle, and the loop goes on
to process the remaining cycles — running the loop from the failed cycle is
the same as running it from the next cycle with the values unchanged (only
`self.connected` is updated by the failed `_poll_once`). -/
theorem claim_C5 (rt : RegisterType) (ooc : Bool) (count : Nat) (s : LoopState)
    (env : CycleEnv) (rest : List CycleInput)
    (h : (_poll_once rt count env s.connected).fst = none) :
    pollLoopAux rt ooc count s (.io env :: rest)
      = pollLoopAux rt ooc count
          ⟨s.values, (_poll_once rt count env s.connected).snd⟩ rest := by
  simp only [pollLoopAux, h, pollStep]
  simp

/-- C5 witness: the statement instantiated at a cycle whose read raises
(outcome `err`), starting from a stored vector `[some true]`. -/
theorem claim_C5_witness :
    pollLoopAux .coil true 1 ⟨some [some true], true⟩
        (.io ⟨true, true, .err⟩ :: [])
      = pollLoopAux .coil true 1
          ⟨some [some true],
            (_poll_once .coil 1 ⟨true, true, .err⟩
              (LoopState.mk (some [some true]) true).connected).snd⟩ [] :=
  claim_C5 .coil true 1 ⟨some [some true], true⟩ ⟨true, true, .err⟩ [] rfl

/-- C6 (amended): an unexpected internal error in the loop body is caught
and terminates the loop: no further cycle is processed, nothing is
dispatched from the crashing cycle on, and the stored Value Vector is left
frozen as it was at the moment of the error — but the `finally` clause then
sets `self.connected = False`, so the Connection State is forced to
disconnected rather than frozen. -/
theorem claim_C6 (rt : RegisterType) (ooc : Bool) (count : Nat) (s : LoopState)
    (rest : List CycleInput) :
    _poll_loop rt ooc count s (.crash :: rest)
      = (⟨s.values, false⟩, [], true) := by
  simp [_poll_loop, pollLoopAux]

/-- C6 counterexample: a crash while the hub is connected
(`connected = true`, stored vector `[some true]`) ends with
`connected = false`; the final state is not the state at the moment of the
error, so the Connection State is not frozen. -/
theorem claim_C6_counterexample :
    _poll_loop .coil true 1 ⟨some [some true], true⟩ [.crash]
        = (⟨some [some true], false⟩, [], true) ∧
    (⟨some [some true], false⟩ : LoopState) ≠ ⟨some [some true], true⟩ := by
  exact ⟨rfl, by decide⟩

/-- The pymodbus 3.x shape of a read method: `inspect.signature` reports a
`slave` parameter and only the `slave` keyword is accepted; a call with
`unit=` raises the standard unexpected-keyword `TypeError`. -/
def slaveOnlyCoils : ReadMethod :=
  ⟨"read_coils", true, false, true, false, true, ⟨false, [true], []⟩⟩

/-- A read method that accepts only the `unit` keyword; a call with
`slave=` raises the standard unexpected-keyword `TypeError`. -/
def unitOnlyCoils : ReadMethod :=
  ⟨"read_coils", true, true, false, true, false, ⟨false, [true], []⟩⟩

/-- C7 (code bug): with the cached keyword choice `slave` and a method that
accepts only `unit`, the failing call's standard CPython message contains
the phrase `got an unexpected keyword`, so `_read_call`'s first branch
fires, re-assigns the cache to `slave` instead of flipping it, and the
single retry repeats the same rejected keyword and fails — even though a
call with `unit` would have succeeded.  The flip the claim (and the
source's own comment, `Retry once with the alternate kwarg name`) describe
only happens in the `unit` → `slave` direction, shown in the second
conjunct. -/
theorem claim_C7_bug :
    _read_call unitOnlyCoils (some kwSlave)
        = (.error (tyErrMsg unitOnlyCoils.name kwSlave), some kwSlave) ∧
    callWith unitOnlyCoils kwUnit = .ok unitOnlyCoils.result ∧
    _read_call slaveOnlyCoils (some kwUnit)
        = (.ok slaveOnlyCoils.result, some kwSlave) := by
  refine ⟨?_, rfl, ?_⟩ <;> rfl

/-- C8 (confirmed): the target period of `_poll_loop` equals the configured
sample period floored at one millisecond — for every configured value,
including non-positive ones — and the per-cycle sleep duration is never
negative. -/
theorem claim_C8 :
    (∀ conf : Int, targetPeriod conf = max (1 / 1000) ((conf : ℚ) / 1000)) ∧
    (∀ period elapsed : ℚ, 0 ≤ sleep_for period elapsed) := by
  constructor
  · intro conf
    unfold targetPeriod sample_ms
    have h1000 : (0 : ℚ) ≤ 1000 := by norm_num
    push_cast
    rw [← max_div_div_right h1000, ← max_assoc, max_self]
  · intro period elapsed
    exact le_max_left 0 (period - elapsed)

/-- C9 (confirmed): the diagnostic tool's exit code is 2 when RTU mode
lacks a serial port, 3 when the initial connect fails, 4 when the device
reports an error response, 5 when the read succeeds but the response
carries no value sequence, and 0 on a successful read with data. -/
theorem claim_C9 (a : CliArgs) (env : CliEnv) :
    (a.mode = .rtu → a.serialGiven = false → cliMain a env = 2) ∧
    (¬(a.mode = .rtu ∧ a.serialGiven = false) → env.connectOk = false →
      cliMain a env = 3) ∧
    (¬(a.mode = .rtu ∧ a.serialGiven = false) → env.connectOk = true →
      env.readIsError = true → cliMain a env = 4) ∧
    (¬(a.mode = .rtu ∧ a.serialGiven = false) → env.connectOk = true →
      env.readIsError = false → cliNoData a.rtype env = true →
      cliMain a env = 5) ∧
    (¬(a.mode = .rtu ∧ a.serialGiven = false) → env.connectOk = true →
      env.readIsError = false → cliNoData a.rtype env = false →
      cliMain a env = 0) := by
  unfold cliMain
  refine ⟨?_, ?_, ?_, ?_, ?_⟩ <;> intros <;> simp_all

/-- C9 witness: all five exit codes exercised at concrete runs. -/
theorem claim_C9_witness :
    cliMain ⟨.rtu, false, .holding⟩ ⟨true, false, some [5], none⟩ = 2 ∧
    cliMain ⟨.tcp, false, .holding⟩ ⟨false, false, some [5], none⟩ = 3 ∧
    cliMain ⟨.tcp, false, .holding⟩ ⟨true, true, some [5], none⟩ = 4 ∧
    cliMain ⟨.tcp, false, .holding⟩ ⟨true, false, none, none⟩ = 5 ∧
    cliMain ⟨.tcp, false, .holding⟩ ⟨true, false, some [5], none⟩ = 0 :=
  ⟨(claim_C9 ⟨.rtu, false, .holding⟩ ⟨true, false, some [5], none⟩).1 rfl rfl,
   (claim_C9 ⟨.tcp, false, .holding⟩ ⟨false, false, some [5], none⟩).2.1
     (by decide) rfl,
   (claim_C9 ⟨.tcp, false, .holding⟩ ⟨true, true, some [5], none⟩).2.2.1
     (by decide) rfl rfl,
   (claim_C9 ⟨.tcp, false, .holding⟩ ⟨true, false, none, none⟩).2.2.2.1
     (by decide) rfl rfl rfl,
   (claim_C9 ⟨.tcp, false, .holding⟩ ⟨true, false, some [5], none⟩).2.2.2.2
     (by decide) rfl rfl rfl⟩

/-- C10 (confirmed): the snapshot accessor `is_on` is total at the public
interface — it answers `none` when the hub's vector is absent or the index
is out of range, and the stored element otherwise; it never fails. -/
theorem claim_C10 (values : Option (List (Option Bool))) (index : Nat) :
    (values = none → is_on values index = none) ∧
    (∀ vals, values = some vals → vals.length ≤ index →
      is_on values index = none) ∧
    (∀ vals (h : index < vals.length), values = some vals →
      is_on values index = vals.get ⟨index, h⟩) := by
  refine ⟨?_, ?_, ?_⟩
  · rintro rfl
    rfl
  · rintro vals rfl hlen
    simp [is_on, hlen]
  · rintro vals h rfl
    have hlt : ¬ vals.length ≤ index := by omega
    simp [is_on, hlt, List.getD_eq_getElem?_getD, List.getElem?_eq_getElem h]

/-- C10 witness: in-range, out-of-range and absent-vector lookups at
concrete inputs. -/
theorem claim_C10_witness :
    is_on none 0 = none ∧
    is_on (some [some true, none]) 5 = none ∧
    is_on (some [some true, none]) 0
      = ([some true, none] : List (Option Bool)).get ⟨0, by decide⟩ :=
  ⟨(claim_C10 none 0).1 rfl,
   (claim_C10 (some [some true, none]) 5).2.1 [some true, none] rfl (by decide),
   (claim_C10 (some [some true, none]) 0).2.2 [some true, none] (by decide) rfl⟩

end ModbusFast
